import Mathlib

/-!
Verification development for the Lakehouse SQL-endpoint synchronization
orchestrator (`LakehouseSyncEndpoint.py`).

The Python source is shallowly embedded:
* the Gregorian calendar arithmetic performed by `datetime` is modelled from
  first principles (proleptic Gregorian calendar, years `1 .. 9999`, the same
  range `datetime` supports; timestamps are seconds since `0001-01-01T00:00:00`);
* `pytz.timezone("Europe/Madrid")` is modelled by the current EU daylight-saving
  rule (CET = UTC+1, CEST = UTC+2 between 01:00 UTC of the last Sunday of March
  and 01:00 UTC of the last Sunday of October), which is what the zone database
  prescribes for every modern date;
* JSON payloads are an inductive `Json` type, and Python dictionary / list
  access, `dict.get`, iteration and exceptions are modelled explicitly;
* the HTTP client is an environment (`Env`) supplying the response of each of
  the three remote operations; a raised `FabricHTTPException` or other
  transport-level fault is an `Except.error` response;
* the unbounded polling loop is modelled with explicit fuel: exhausting the
  fuel yields the `diverge` outcome, so nontermination is observable.
-/

namespace LakehouseSync

/-! ## Calendar model (proleptic Gregorian, as implemented by Python `datetime`) -/

/-- Gregorian leap-year test, as in `calendar.isleap` / `datetime`. -/
def isLeap (y : Nat) : Bool :=
  (y % 4 == 0 && y % 100 != 0) || y % 400 == 0

/-- Number of days in month `m` (1-based) of year `y`, as in `datetime`. -/
def daysInMonth (y m : Nat) : Nat :=
  if m = 2 then (if isLeap y then 29 else 28)
  else if m = 4 ∨ m = 6 ∨ m = 9 ∨ m = 11 then 30
  else 31

/-- Number of days in year `y`. -/
def daysInYear (y : Nat) : Nat :=
  if isLeap y then 366 else 365

/-- Days strictly before January 1 of year `y`, counting from 0001-01-01.
This is the closed form used by CPython `datetime._days_before_year`. -/
def daysBeforeYear (y : Nat) : Nat :=
  365 * (y - 1) + (y - 1) / 4 - (y - 1) / 100 + (y - 1) / 400

/-- Days of year `y` strictly before the first day of month `m` (1-based). -/
def daysBeforeMonth (y : Nat) : Nat → Nat
  | 0 => 0
  | 1 => 0
  | (m + 2) => daysBeforeMonth y (m + 1) + daysInMonth y (m + 1)

/-- Day count since 0001-01-01 of the civil date `y-m-d` (all 1-based),
the inverse of `datetime.toordinal` shifted by one. -/
def dateToDays (y m d : Nat) : Nat :=
  daysBeforeYear y + daysBeforeMonth y m + (d - 1)

/-- Find the year containing day number `n` (with `n` counted from January 1 of
year `y`); returns the year and the remaining day-of-year.  Structural fuel
makes the definition kernel-computable; any `fuel > n` is enough. -/
def daysToYearAux : Nat → Nat → Nat → Nat × Nat
  | 0, y, n => (y, n)
  | fuel + 1, y, n =>
    if n < daysInYear y then (y, n)
    else daysToYearAux fuel (y + 1) (n - daysInYear y)

/-- Find the month containing day-of-year `n` (counted from month `m` of year
`y`); returns the month and the remaining day-of-month offset. -/
def daysToMonthAux (y : Nat) : Nat → Nat → Nat → Nat × Nat
  | 0, m, n => (m, n)
  | fuel + 1, m, n =>
    if n < daysInMonth y m then (m, n)
    else daysToMonthAux y fuel (m + 1) (n - daysInMonth y m)

/-- Convert a day count since 0001-01-01 to a civil date `(y, m, d)`,
the model of `datetime.fromordinal`.  The year search starts from the lower
bound `n / 366 + 1` (every year has at most 366 days), which keeps the number
of iterations small enough for kernel evaluation. -/
def daysToDate (n : Nat) : Nat × Nat × Nat :=
  let y0 := n / 366 + 1
  let r0 := n - daysBeforeYear y0
  let yr := daysToYearAux (r0 + 1) y0 r0
  let mr := daysToMonthAux yr.1 (yr.2 + 1) 1 yr.2
  (yr.1, mr.1, mr.2 + 1)

/-- First second that no longer fits in Python `datetime` (year 10000);
`datetime.max` is the last microsecond of year 9999. -/
def maxSecs : Nat := dateToDays 10000 1 1 * 86400

/-! ## Europe/Madrid timezone model -/

/-- Day number of the last Sunday of month `m` (March or October) of year `y`.
Day 0 (0001-01-01) is a Monday, so `n % 7 = 6` means Sunday, matching
`datetime.weekday`. -/
def lastSundayDays (y m : Nat) : Nat :=
  let d := dateToDays y m 31
  d - ((d % 7 + 1) % 7)

/-- Whether the UTC instant `n` (seconds since 0001-01-01) falls within the
Madrid daylight-saving window: from 01:00 UTC on the last Sunday of March to
01:00 UTC on the last Sunday of October (the EU rule applied by the zone
database for modern dates). -/
def isDSTMadrid (n : Nat) : Bool :=
  let y := (daysToDate (n / 86400)).1
  decide (lastSundayDays y 3 * 86400 + 3600 ≤ n ∧ n < lastSundayDays y 10 * 86400 + 3600)

/-- UTC offset of Europe/Madrid, in seconds, at UTC instant `n`. -/
def madridOffset (n : Nat) : Nat :=
  if isDSTMadrid n then 7200 else 3600

/-! ## Decimal digits and `strftime`-style formatting -/

/-- Character for the decimal digit `k`. -/
def digitChar (k : Nat) : Char := Char.ofNat (48 + k)

/-- Numeric value of a decimal digit character. -/
def digitVal (c : Char) : Nat := c.toNat - 48

/-- Parse one decimal digit, as the ISO parser does. -/
def dig (c : Char) : Option Nat :=
  if c.isDigit then some (c.toNat - 48) else none

/-- Two decimal digits. -/
def dig2 (a b : Char) : Option Nat := do
  let x ← dig a
  let y ← dig b
  pure (x * 10 + y)

/-- Four decimal digits. -/
def dig4 (a b c d : Char) : Option Nat := do
  let x ← dig2 a b
  let y ← dig2 c d
  pure (x * 100 + y)

/-- Zero-padded two-digit rendering (`%m`, `%d`, `%H`, `%M`, `%S`). -/
def pad2 (n : Nat) : List Char :=
  [digitChar (n / 10 % 10), digitChar (n % 10)]

/-- Zero-padded four-digit rendering (`%Y`). -/
def pad4 (n : Nat) : List Char :=
  [digitChar (n / 1000 % 10), digitChar (n / 100 % 10),
   digitChar (n / 10 % 10), digitChar (n % 10)]

/-- Render local seconds-since-epoch `loc` in the `"%Y-%m-%d %H:%M:%S %Z"`
format used by the source, with `tz` the timezone abbreviation characters. -/
def fmtLocal (loc : Nat) (tz : List Char) : String :=
  let t := daysToDate (loc / 86400)
  let r := loc % 86400
  String.mk (pad4 t.1 ++ '-' :: pad2 t.2.1 ++ '-' :: pad2 t.2.2 ++
    ' ' :: pad2 (r / 3600) ++ ':' :: pad2 (r % 3600 / 60) ++ ':' :: pad2 (r % 60) ++
    ' ' :: tz)

/-! ## ISO-8601 parsing (`datetime.fromisoformat`) -/

/-- Model of `datetime.fromisoformat` restricted to the canonical shape produced
at the call site: `YYYY-MM-DDTHH:MM:SS+00:00`.  Returns the UTC instant as
seconds since 0001-01-01, after validating every field exactly as `datetime`
does (year at least 1, month `1..12`, day bounded by the month length,
time fields in range). -/
def fromisoformatUTC : List Char → Option Nat
  | [y1, y2, y3, y4, '-', o1, o2, '-', d1, d2, 'T',
     h1, h2, ':', i1, i2, ':', s1, s2, '+', '0', '0', ':', '0', '0'] => do
    let y ← dig4 y1 y2 y3 y4
    let mo ← dig2 o1 o2
    let d ← dig2 d1 d2
    let h ← dig2 h1 h2
    let mi ← dig2 i1 i2
    let s ← dig2 s1 s2
    if 1 ≤ y ∧ 1 ≤ mo ∧ mo ≤ 12 ∧ 1 ≤ d ∧ d ≤ daysInMonth y mo ∧
        h ≤ 23 ∧ mi ≤ 59 ∧ s ≤ 59 then
      some (dateToDays y mo d * 86400 + h * 3600 + mi * 60 + s)
    else none
  | _ => none

/-- The truncate-then-parse pipeline of the Time Localizer: drop everything from
the first `'.'` on (Python `split('.')[0]`), append `"+00:00"`, and parse.
A string is a valid truncated-ISO timestamp exactly when this returns `some`. -/
def truncISOParse (s : String) : Option Nat :=
  fromisoformatUTC (s.data.takeWhile (· ≠ '.') ++ "+00:00".data)

/-! ## Python values, exceptions and dictionary access -/

/-- Python exceptions that the program can raise or catch.  `fabricHTTP` models
`FabricHTTPException` (the spec's `TransportError`), `workspaceNotFound` models
`WorkspaceNotFoundException`, `keyError` a `KeyError` on a missing dictionary
key (the spec's `SchemaError`), `valueError` a `ValueError` (the spec's
`FormatError`), and `other` any remaining exception. -/
inductive PyError where
  | fabricHTTP (msg : String)
  | workspaceNotFound (msg : String)
  | keyError (key : String)
  | valueError (msg : String)
  | other (msg : String)
deriving DecidableEq, Repr

/-- Parsed JSON values as Python objects: `null` is Python `None`, and objects
keep their fields in order. -/
inductive Json where
  | null
  | str (s : String)
  | arr (elems : List Json)
  | obj (fields : List (String × Json))
deriving Repr

/-- First value bound to `key` in an association list of object fields. -/
def Json.lookup : List (String × Json) → String → Option Json
  | [], _ => none
  | (k, v) :: rest, key => if k == key then some v else Json.lookup rest key

/-- Model of the Python string-subscript `x[key]`: a lookup on a dictionary
that raises `KeyError` for a missing key, and `TypeError` on non-dictionaries. -/
def pyIndex (j : Json) (key : String) : Except PyError Json :=
  match j with
  | .obj fields =>
    match Json.lookup fields key with
    | some v => .ok v
    | none => .error (.keyError key)
  | .arr _ => .error (.other "TypeError: list indices must be integers or slices, not str")
  | .str _ => .error (.other "TypeError: string indices must be integers")
  | .null => .error (.other "TypeError: NoneType object is not subscriptable")

/-- Model of the Python integer subscript `x[i]`. -/
def pyIndexNat (j : Json) (i : Nat) : Except PyError Json :=
  match j with
  | .arr elems =>
    match elems.get? i with
    | some v => .ok v
    | none => .error (.other "IndexError: list index out of range")
  | .obj _ => .error (.other "KeyError: 0")
  | .str _ => .error (.other "TypeError: string indices model only characters")
  | .null => .error (.other "TypeError: NoneType object is not subscriptable")

/-- Model of Python `dict.get(key, default)`; raises `AttributeError` when the
receiver is not a dictionary. -/
def pyGetD (j : Json) (key : String) (dflt : Json) : Except PyError Json :=
  match j with
  | .obj fields => .ok ((Json.lookup fields key).getD dflt)
  | _ => .error (.other "AttributeError: object has no attribute get")

/-- Model of Python iteration `for x in j`: lists yield elements, dictionaries
yield their keys, strings yield their characters, `None` is not iterable. -/
def pyIter (j : Json) : Except PyError (List Json) :=
  match j with
  | .arr elems => .ok elems
  | .obj fields => .ok (fields.map (fun kv => Json.str kv.1))
  | .str s => .ok (s.data.map (fun c => Json.str (String.mk [c])))
  | .null => .error (.other "TypeError: NoneType object is not iterable")

/-- Model of the Python comparison `j == s` for a string literal `s`:
equal strings compare equal, any non-string value compares unequal. -/
def Json.isStrEq (j : Json) (s : String) : Bool :=
  match j with
  | .str t => t == s
  | _ => false

/-- Model of Python `repr` on parsed JSON values. -/
def pyRepr : Json → String
  | .null => "None"
  | .str s => "\x27" ++ s ++ "\x27"
  | .arr elems =>
    "[" ++ String.intercalate ", " (elems.attach.map (fun e => pyRepr e.1)) ++ "]"
  | .obj fields =>
    "\x7b" ++ String.intercalate ", "
      (fields.attach.map (fun kv => "\x27" ++ kv.1.1 ++ "\x27: " ++ pyRepr kv.1.2)) ++ "\x7d"
decreasing_by
  · have := List.sizeOf_lt_of_mem e.2
    simp at this ⊢
    omega
  · obtain ⟨⟨k, v⟩, hm⟩ := kv
    have := List.sizeOf_lt_of_mem hm
    simp at this ⊢
    omega

/-- Model of Python `str` (as used by f-string interpolation): a string renders
as itself, any other value as its `repr`. -/
def pyStr (j : Json) : String :=
  match j with
  | .str s => s
  | _ => pyRepr j

/-- Rendering of a raised exception inside an f-string, as in the source's
`logging.error(f"...: \x7be\x7d")` calls. -/
def pyErrStr : PyError → String
  | .fabricHTTP m => m
  | .workspaceNotFound m => m
  | .keyError k => "\x27" ++ k ++ "\x27"
  | .valueError m => m
  | .other m => m

/-! ## The Time Localizer (`convert_to_spain`) -/

/-- Model of `utc_time.astimezone(madrid_tz)` followed by
`strftime("%Y-%m-%d %H:%M:%S %Z")`: shift the UTC instant by the Madrid offset
and render it with the matching abbreviation.  Python `datetime` cannot
represent years beyond 9999, so a shifted instant falling after
`datetime.max` raises `OverflowError`. -/
def astimezoneMadrid (n : Nat) : Except PyError String :=
  if n + madridOffset n < maxSecs then
    .ok (fmtLocal (n + madridOffset n)
      (if isDSTMadrid n then "CEST".data else "CET".data))
  else .error (.other "OverflowError: date value out of range")

/-- Model of `convert_to_spain`: `None` maps to `"N/A"`; a string is truncated
at the first `'.'`, suffixed with `"+00:00"`, parsed with
`datetime.fromisoformat` (a failure raises `ValueError`), and localized to
Madrid; a non-string, non-`None` argument raises `AttributeError` on
`.split`. -/
def convert_to_spain (v : Json) : Except PyError String :=
  match v with
  | .null => .ok "N/A"
  | .str s =>
    match truncISOParse s with
    | none =>
      .error (.valueError ("Invalid isoformat string: \x27" ++
        String.mk (s.data.takeWhile (· ≠ '.') ++ "+00:00".data) ++ "\x27"))
    | some n => astimezoneMadrid n
  | _ => .error (.other "AttributeError: object has no attribute split")

/-- Combine two decimal digit characters. -/
def dec2 (a b : Char) : Nat := digitVal a * 10 + digitVal b

/-- Combine four decimal digit characters. -/
def dec4 (a b c d : Char) : Nat := dec2 a b * 100 + dec2 c d

/-- Reassemble the local seconds encoded by the 19 date-time characters of a
localized output string. -/
def localSecsOf (y1 y2 y3 y4 o1 o2 d1 d2 h1 h2 i1 i2 s1 s2 : Char) : Nat :=
  dateToDays (dec4 y1 y2 y3 y4) (dec2 o1 o2) (dec2 d1 d2) * 86400 +
    dec2 h1 h2 * 3600 + dec2 i1 i2 * 60 + dec2 s1 s2

/-- Parse a localized output list `"YYYY-MM-DD HH:MM:SS CET"` or `"... CEST"`
back to a UTC instant, subtracting the offset named by the abbreviation. -/
def parseMadridChars : List Char → Option Int
  | [y1, y2, y3, y4, '-', o1, o2, '-', d1, d2, ' ',
     h1, h2, ':', i1, i2, ':', s1, s2, ' ', 'C', 'E', 'T'] =>
    some ((localSecsOf y1 y2 y3 y4 o1 o2 d1 d2 h1 h2 i1 i2 s1 s2 : Int) - 3600)
  | [y1, y2, y3, y4, '-', o1, o2, '-', d1, d2, ' ',
     h1, h2, ':', i1, i2, ':', s1, s2, ' ', 'C', 'E', 'S', 'T'] =>
    some ((localSecsOf y1 y2 y3 y4 o1 o2 d1 d2 h1 h2 i1 i2 s1 s2 : Int) - 7200)
  | _ => none

/-- Parse a localized output string back to a UTC instant.  This is the
parse-back direction of the round-trip property. -/
def parseMadridOut (out : String) : Option Int :=
  parseMadridChars out.data

/-! ## The remote environment and the four pipeline stages -/

/-- Responses of the remote platform for one orchestration run: the metadata
read used by the Endpoint Resolver, the refresh submission used by the Sync
Initiator, and the sequence of status reads consumed by the Sync Poller
(`pollResp i` is the response of the `i`-th status read of this run's batch).
A response that is an `Except.error` models a request on which
`raise_for_status` (or the transport itself) raised. -/
structure Env where
  resolverResp : Except PyError Json
  initResp : Except PyError Json
  pollResp : Nat → Except PyError Json

/-- Model of `fetch_sql_endpoint_id`: one metadata read, then extraction of
`["properties"]["sqlEndpointProperties"]["id"]`. -/
def fetch_sql_endpoint_id (env : Env) : Except PyError Json := do
  let lakehouse_info ← env.resolverResp
  let props ← pyIndex lakehouse_info "properties"
  let sep ← pyIndex props "sqlEndpointProperties"
  pyIndex sep "id"

/-- Model of `initiate_sync`: one refresh submission, then extraction of
`data["batchId"]` and `data["progressState"]`. -/
def initiate_sync (env : Env) : Except PyError (Json × Json) := do
  let data ← env.initResp
  let batchId ← pyIndex data "batchId"
  let progressState ← pyIndex data "progressState"
  pure (batchId, progressState)

/-- Events observable from the polling loop: a blocking sleep of a given number
of time units, or a status read with its index in this run. -/
inductive PollEv where
  | sleep (units : Nat)
  | read (idx : Nat)
deriving DecidableEq, Repr

/-- Result of the polling loop: `diverge` when the given fuel was exhausted
with every read still `inProgress` (the loop has no bound of its own),
`err` when an iteration raised, `done` with the final status payload. -/
inductive PollOutcome where
  | diverge
  | err (e : PyError)
  | done (payload : Json)
deriving Repr

/-- Model of the body of `poll_sync_status`, which starts a fresh
`progress_state = "inProgress"` and loops `sleep(1)`, read, re-extract
`status_data["progressState"]` while the extracted state equals
`"inProgress"`.  `i` is the index of the next status read; the returned list
is the trace of sleeps and reads this invocation performed, in order. -/
def pollAux (resp : Nat → Except PyError Json) : Nat → Nat → PollOutcome × List PollEv
  | _, 0 => (.diverge, [])
  | i, fuel + 1 =>
    match resp i with
    | .error e => (.err e, [.sleep 1, .read i])
    | .ok status_data =>
      match pyIndex status_data "progressState" with
      | .error e => (.err e, [.sleep 1, .read i])
      | .ok st =>
        if st.isStrEq "inProgress" then
          ((pollAux resp (i + 1) fuel).1,
            .sleep 1 :: .read i :: (pollAux resp (i + 1) fuel).2)
        else (.done status_data, [.sleep 1, .read i])

/-- Model of `poll_sync_status`, with explicit fuel standing in for the
unbounded `while` loop. -/
def poll_sync_status (resp : Nat → Except PyError Json) (fuel : Nat) :
    PollOutcome × List PollEv :=
  pollAux resp 0 fuel

/-! ## The Result Classifier / Reporter -/

/-- One per-table record built by the success branch (the spec's
`TableSyncRecord`): the raw `tableName`, `tableSyncState` and `sqlSyncState`
values, and the already-localized `lastSuccessfulUpdate` display string. -/
structure TableRec where
  tableName : Json
  lastSuccessfulUpdate : String
  tableSyncState : Json
  sqlSyncState : Json

/-- Severity of a logged diagnostic. -/
inductive LogLevel where
  | error
  | warning
deriving DecidableEq, Repr

/-- Observable output of a run: lines written by `print`, and diagnostics
written through `logging`, each in emission order. -/
structure RunOut where
  printed : List String
  logged : List (LogLevel × String)
deriving DecidableEq, Repr

/-- Model of one element of the success-branch list comprehension: the
dictionary literal evaluates `table["tableName"]`, then
`convert_to_spain(table.get("lastSuccessfulUpdate", "N/A"))`, then
`table["tableSyncState"]` and `table["sqlSyncState"]`, raising at the first
failure. -/
def buildRecord (table : Json) : Except PyError TableRec := do
  let name ← pyIndex table "tableName"
  let rawLu ← pyGetD table "lastSuccessfulUpdate" (Json.str "N/A")
  let lu ← convert_to_spain rawLu
  let ts ← pyIndex table "tableSyncState"
  let ss ← pyIndex table "sqlSyncState"
  pure ⟨name, lu, ts, ss⟩

/-- The `print` line formatted for one record by the success branch. -/
def renderLine (r : TableRec) : String :=
  "Table: " ++ pyStr r.tableName ++ "   Last Update: " ++ r.lastSuccessfulUpdate ++
    "  Table Sync State: " ++ pyStr r.tableSyncState ++
    "  SQL Sync State: " ++ pyStr r.sqlSyncState

/-- Model of the result-classification block of `sync_lakehouse` on the
terminal payload: the `success` branch builds the full record list and then
prints one line per record; the `failure` branch logs one error with the whole
payload; any other terminal state logs one warning naming the state.  Returns
the records built together with the observable output; an exception inside the
branch propagates (nothing was printed yet, since printing follows the
comprehension). -/
def reportResult (status_data : Json) : Except PyError (List TableRec × RunOut) := do
  let st ← pyIndex status_data "progressState"
  if st.isStrEq "success" then
    let oi ← pyIndex status_data "operationInformation"
    let op0 ← pyIndexNat oi 0
    let pd ← pyIndex op0 "progressDetail"
    let tss ← pyIndex pd "tablesSyncStatus"
    let tables ← pyIter tss
    let table_details ← tables.mapM buildRecord
    pure (table_details, ⟨table_details.map renderLine, []⟩)
  else if st.isStrEq "failure" then
    pure ([], ⟨[], [(LogLevel.error, "Sync failed: " ++ pyStr status_data)]⟩)
  else do
    let st2 ← pyIndex status_data "progressState"
    pure ([], ⟨[], [(LogLevel.warning, "Unexpected state: " ++ pyStr st2)]⟩)

/-! ## The Orchestrator (`sync_lakehouse`) -/

/-- The diagnostic logged by the `except` clauses of `sync_lakehouse` for a
raised exception: `FabricHTTPException` and `WorkspaceNotFoundException` get
their distinguishing labels, everything else the generic label. -/
def excLog : PyError → LogLevel × String
  | .fabricHTTP m => (.error, "Fabric HTTP Exception: " ++ m)
  | .workspaceNotFound m => (.error, "Workspace not found: " ++ m)
  | e => (.error, "An unexpected error occurred: " ++ pyErrStr e)

/-- The `try` body of `sync_lakehouse`: Resolver, Initiator, Poller, Reporter
in sequence.  `none` means the polling loop never observed a terminal state
within the fuel (the run is still inside the loop); `some (.error e)` means the
body raised `e`; `some (.ok out)` is a normal completion with output `out`.
No fault path prints anything: the success branch prints only after the whole
comprehension has been built. -/
def syncBody (env : Env) (fuel : Nat) : Option (Except PyError RunOut) :=
  match fetch_sql_endpoint_id env with
  | .error e => some (.error e)
  | .ok _sql_endpoint_id =>
    match initiate_sync env with
    | .error e => some (.error e)
    | .ok _batch_and_state =>
      match pollAux env.pollResp 0 fuel with
      | (.diverge, _) => none
      | (.err e, _) => some (.error e)
      | (.done status_data, _) => some ((reportResult status_data).map (fun r => r.2))

/-- Model of `sync_lakehouse`: the `try` body with every raised exception
funneled into exactly one logged diagnostic.  `none` only when the polling
loop is still running (fuel exhausted while `inProgress`). -/
def sync_lakehouse (env : Env) (fuel : Nat) : Option RunOut :=
  match syncBody env fuel with
  | none => none
  | some (.ok out) => some out
  | some (.error e) => some ⟨[], [excLog e]⟩

/-- The `k`-th status read answers without raising and reports
`progressState = "inProgress"` (the condition under which the polling loop
keeps going). -/
def okInProgress (resp : Nat → Except PyError Json) (k : Nat) : Prop :=
  ∃ j, resp k = .ok j ∧ pyIndex j "progressState" = .ok (Json.str "inProgress")

/-! ## Concrete payloads and environments used for instantiation -/

/-- A status payload still in progress. -/
def inProgressPayload : Json := .obj [("progressState", .str "inProgress")]

/-- A metadata response resolving to SQL endpoint `"ep-1"`. -/
def resolverOkJson : Json :=
  .obj [("properties", .obj [("sqlEndpointProperties", .obj [("id", .str "ep-1")])])]

/-- An initiation response with batch `"b1"` still in progress. -/
def initOkJson : Json :=
  .obj [("batchId", .str "b1"), ("progressState", .str "inProgress")]

/-- An initiation response with batch `"b1"` already terminal. -/
def initOkSuccessJson : Json :=
  .obj [("batchId", .str "b1"), ("progressState", .str "success")]

/-- The `"Orders"` table entry of the scenario, timestamp present. -/
def ordersTable : Json :=
  .obj [("tableName", .str "Orders"),
        ("lastSuccessfulUpdate", .str "2024-01-01T10:00:00.123"),
        ("tableSyncState", .str "Completed"),
        ("sqlSyncState", .str "Completed")]

/-- Fields of a table entry with no `lastSuccessfulUpdate` key. -/
def naTableFields : List (String × Json) :=
  [("tableName", .str "Orders"),
   ("tableSyncState", .str "Completed"),
   ("sqlSyncState", .str "Completed")]

/-- A table entry with no `lastSuccessfulUpdate` key. -/
def naTable : Json := .obj naTableFields

/-- A terminal `success` payload carrying one table entry. -/
def successPayload (t : Json) : Json :=
  .obj [("progressState", .str "success"),
        ("operationInformation",
          .arr [.obj [("progressDetail", .obj [("tablesSyncStatus", .arr [t])])]])]

/-- The environment of the end-to-end scenario: endpoint resolves, batch
starts `inProgress`, first poll still `inProgress`, second poll succeeds with
the `"Orders"` table. -/
def envScenario : Env :=
  { resolverResp := .ok resolverOkJson
    initResp := .ok initOkJson
    pollResp := fun i => match i with
      | 0 => .ok inProgressPayload
      | 1 => .ok (successPayload ordersTable)
      | _ => .ok .null }

/-- Same run, but the single table entry lacks `lastSuccessfulUpdate`. -/
def envMissingTimestamp : Env :=
  { resolverResp := .ok resolverOkJson
    initResp := .ok initOkJson
    pollResp := fun i => match i with
      | 0 => .ok (successPayload naTable)
      | _ => .ok .null }

/-- A metadata response whose `properties` lack `sqlEndpointProperties`. -/
def envMissingSep : Env :=
  { resolverResp := .ok (.obj [("properties", .obj [])])
    initResp := .ok .null
    pollResp := fun _ => .ok .null }

/-- A run whose very first request fails with a transport fault. -/
def envResolverFault : Env :=
  { resolverResp := .error (.fabricHTTP "503 Server Error")
    initResp := .ok .null
    pollResp := fun _ => .ok .null }

/-- Status reads that report `inProgress` forever. -/
def respAllInProgress : Nat → Except PyError Json := fun _ => .ok inProgressPayload

/-- A terminal payload for the poller. -/
def termPayload : Json := .obj [("progressState", .str "success")]

/-- Status reads that are terminal from the first read on. -/
def respTermAt0 : Nat → Except PyError Json := fun _ => .ok termPayload

/-- A terminal payload with an unrecognized state. -/
def unexpectedPayload : Json := .obj [("progressState", .str "done")]

/-- Noninterference pair, first run: Initiator reports `inProgress`. -/
def envNIA : Env :=
  { resolverResp := .ok resolverOkJson
    initResp := .ok initOkJson
    pollResp := fun _ => .ok unexpectedPayload }

/-- Noninterference pair, second run: identical except that the Initiator
reports `success`. -/
def envNIB : Env :=
  { resolverResp := .ok resolverOkJson
    initResp := .ok initOkSuccessJson
    pollResp := fun _ => .ok unexpectedPayload }

/-! ## Reduction lemmas for the `Except` monad -/

theorem pyBind_ok {α β : Type} (a : α) (f : α → Except PyError β) :
    (Except.ok a >>= f) = f a := rfl

theorem pyBind_error {α β : Type} (e : PyError) (f : α → Except PyError β) :
    ((Except.error e : Except PyError α) >>= f) = .error e := rfl

/-! ## Lemmas about the polling loop -/

theorem isStrEq_true_iff (j : Json) (s : String) :
    j.isStrEq s = true ↔ j = Json.str s := by
  cases j <;> simp [Json.isStrEq]

theorem pollAux_done (resp : Nat → Except PyError Json) :
    ∀ fuel i j tr, pollAux resp i fuel = (.done j, tr) →
      ∃ t, i ≤ t ∧ resp t = .ok j ∧
        (∃ st, pyIndex j "progressState" = .ok st ∧ st ≠ Json.str "inProgress") ∧
        (∀ k, i ≤ k → k < t → okInProgress resp k) ∧
        tr = (List.range' i (t + 1 - i)).flatMap
          (fun k => [PollEv.sleep 1, PollEv.read k]) := by
  intro fuel
  induction fuel with
  | zero => intro i j tr h; simp [pollAux] at h
  | succ fuel ih =>
    intro i j tr h
    rw [pollAux] at h
    cases hri : resp i with
    | error e => rw [hri] at h; simp at h
    | ok sd =>
      rw [hri] at h; dsimp only at h
      cases hst : pyIndex sd "progressState" with
      | error e => rw [hst] at h; simp at h
      | ok st =>
        rw [hst] at h; dsimp only at h
        by_cases hip : st.isStrEq "inProgress"
        · rw [if_pos hip] at h
          obtain ⟨h1, h2⟩ := Prod.mk.injEq .. ▸ h
          have hpair : pollAux resp (i + 1) fuel =
              (.done j, (pollAux resp (i + 1) fuel).2) := by
            rw [← h1]
          obtain ⟨t, hit, hrt, hterm, hall, htr⟩ :=
            ih (i + 1) j (pollAux resp (i + 1) fuel).2 hpair
          refine ⟨t, by omega, hrt, hterm, ?_, ?_⟩
          · intro k hik hkt
            rcases Nat.eq_or_lt_of_le hik with hk | hk
            · exact hk ▸ ⟨sd, hri, (isStrEq_true_iff st _).mp hip ▸ hst⟩
            · exact hall k hk hkt
          · rw [← h2, htr]
            have hrange : t + 1 - i = (t + 1 - (i + 1)) + 1 := by omega
            rw [hrange, List.range'_succ, List.flatMap_cons]
            simp
        · rw [if_neg hip] at h
          obtain ⟨h1, h2⟩ := Prod.mk.injEq .. ▸ h
          cases h1
          refine ⟨i, le_refl i, hri, ⟨st, hst, ?_⟩, ?_, ?_⟩
          · intro hcontra
            exact hip ((isStrEq_true_iff st _).mpr hcontra)
          · intro k hik hki; omega
          · simp [← h2, List.range']

theorem pollAux_diverge_of_all_inProgress (resp : Nat → Except PyError Json)
    (hall : ∀ k, okInProgress resp k) :
    ∀ fuel i, (pollAux resp i fuel).1 = .diverge := by
  intro fuel
  induction fuel with
  | zero => intro i; simp [pollAux]
  | succ fuel ih =>
    intro i
    obtain ⟨j, hr, hst⟩ := hall i
    rw [pollAux, hr]; dsimp only
    rw [hst]; dsimp only
    rw [if_pos ((isStrEq_true_iff _ _).mpr rfl)]
    exact ih (i + 1)

theorem pollAux_not_diverge (resp : Nat → Except PyError Json) :
    ∀ fuel i t, (∀ k, i ≤ k → k < t → okInProgress resp k) →
      ¬ okInProgress resp t → i ≤ t → t < i + fuel →
      (pollAux resp i fuel).1 ≠ .diverge := by
  intro fuel
  induction fuel with
  | zero => intro i t _ _ _ hlt; omega
  | succ fuel ih =>
    intro i t hbefore hterm hit hlt
    rw [pollAux]
    cases hri : resp i with
    | error e => simp
    | ok sd =>
      dsimp only
      cases hst : pyIndex sd "progressState" with
      | error e => simp
      | ok st =>
        dsimp only
        by_cases hip : st.isStrEq "inProgress"
        · rw [if_pos hip]
          rcases Nat.eq_or_lt_of_le hit with rfl | hk
          · exact absurd ⟨sd, hri, (isStrEq_true_iff st _).mp hip ▸ hst⟩ hterm
          · exact ih (i + 1) t (fun k h1 h2 => hbefore k (by omega) h2) hterm hk (by omega)
        · rw [if_neg hip]; simp

theorem pollAux_trace_shape (resp : Nat → Except PyError Json) :
    ∀ fuel i, ∃ c, (pollAux resp i fuel).2 =
      (List.range' i c).flatMap (fun k => [PollEv.sleep 1, PollEv.read k]) := by
  intro fuel
  induction fuel with
  | zero => exact fun i => ⟨0, by simp [pollAux]⟩
  | succ fuel ih =>
    intro i
    rw [pollAux]
    cases resp i with
    | error e => exact ⟨1, by simp [List.range']⟩
    | ok sd =>
      dsimp only
      cases pyIndex sd "progressState" with
      | error e => exact ⟨1, by simp [List.range']⟩
      | ok st =>
        dsimp only
        by_cases hip : st.isStrEq "inProgress"
        · rw [if_pos hip]
          obtain ⟨c, hc⟩ := ih (i + 1)
          exact ⟨c + 1, by rw [List.range'_succ, List.flatMap_cons]; simp [hc]⟩
        · rw [if_neg hip]; exact ⟨1, by simp [List.range']⟩

/-! ## Lemmas about the calendar model -/

theorem isLeap_iff (y : Nat) :
    isLeap y = true ↔ (y % 4 = 0 ∧ y % 100 ≠ 0) ∨ y % 400 = 0 := by
  simp [isLeap, Bool.or_eq_true, Bool.and_eq_true, beq_iff_eq, bne_iff_ne]

theorem daysInYear_pos (y : Nat) : 0 < daysInYear y := by
  unfold daysInYear; split <;> omega

theorem daysInMonth_pos (y m : Nat) : 0 < daysInMonth y m := by
  unfold daysInMonth; split_ifs <;> omega

theorem daysInMonth_le_31 (y m : Nat) : daysInMonth y m ≤ 31 := by
  unfold daysInMonth; split_ifs <;> omega

set_option maxHeartbeats 2000000 in
theorem daysBeforeYear_succ (y : Nat) (hy : 1 ≤ y) :
    daysBeforeYear (y + 1) = daysBeforeYear y + daysInYear y := by
  have hiff := isLeap_iff y
  unfold daysBeforeYear daysInYear
  simp only [Nat.add_sub_cancel]
  split_ifs with h
  · have hp := hiff.mp h
    omega
  · have hp : ¬((y % 4 = 0 ∧ y % 100 ≠ 0) ∨ y % 400 = 0) := fun hc => h (hiff.mpr hc)
    omega

theorem daysBeforeYear_le_succ (z : Nat) :
    daysBeforeYear z ≤ daysBeforeYear (z + 1) := by
  match z with
  | 0 => decide
  | z + 1 => rw [daysBeforeYear_succ (z + 1) (by omega)]; omega

theorem daysBeforeYear_mono : ∀ {y z : Nat}, y ≤ z →
    daysBeforeYear y ≤ daysBeforeYear z := by
  intro y z h
  induction z with
  | zero => have hz : y = 0 := by omega
            subst hz; exact le_refl _
  | succ z ih =>
    rcases Nat.lt_or_ge y (z + 1) with h2 | h2
    · exact le_trans (ih (by omega)) (daysBeforeYear_le_succ z)
    · have hz : y = z + 1 := by omega
      subst hz; exact le_refl _

theorem daysBeforeYear_seed (n : Nat) : daysBeforeYear (n / 366 + 1) ≤ n := by
  unfold daysBeforeYear
  simp only [Nat.add_sub_cancel]
  omega

theorem daysToYearAux_spec : ∀ fuel y n, n < fuel → 1 ≤ y →
    1 ≤ (daysToYearAux fuel y n).1 ∧ y ≤ (daysToYearAux fuel y n).1 ∧
    daysBeforeYear (daysToYearAux fuel y n).1 + (daysToYearAux fuel y n).2 =
      daysBeforeYear y + n ∧
    (daysToYearAux fuel y n).2 < daysInYear (daysToYearAux fuel y n).1 := by
  intro fuel
  induction fuel with
  | zero => intro y n h; omega
  | succ fuel ih =>
    intro y n h hy
    rw [daysToYearAux]
    by_cases hlt : n < daysInYear y
    · rw [if_pos hlt]
      exact ⟨hy, le_refl y, rfl, hlt⟩
    · rw [if_neg hlt]
      have hpos := daysInYear_pos y
      obtain ⟨h1, h2, h3, h4⟩ :=
        ih (y + 1) (n - daysInYear y) (by omega) (by omega)
      refine ⟨h1, by omega, ?_, h4⟩
      rw [h3, daysBeforeYear_succ y hy]
      omega

theorem daysBeforeMonth_succ (y m : Nat) (hm : 1 ≤ m) :
    daysBeforeMonth y (m + 1) = daysBeforeMonth y m + daysInMonth y m := by
  match m with
  | m + 1 => rfl

theorem daysBeforeMonth_mono (y : Nat) : ∀ {a b : Nat}, 1 ≤ a → a ≤ b →
    daysBeforeMonth y a ≤ daysBeforeMonth y b := by
  intro a b ha h
  induction b with
  | zero => omega
  | succ b ih =>
    rcases Nat.lt_or_ge a (b + 1) with h2 | h2
    · have hb : 1 ≤ b := by omega
      exact le_trans (ih (by omega))
        (by rw [daysBeforeMonth_succ y b hb]; omega)
    · have hb : a = b + 1 := by omega
      subst hb; exact le_refl _

theorem daysBeforeMonth_13 (y : Nat) : daysBeforeMonth y 13 = daysInYear y := by
  by_cases hL : isLeap y = true <;>
    simp [daysBeforeMonth, daysInMonth, daysInYear, hL]

theorem daysToMonthAux_spec (y : Nat) : ∀ fuel m n, n < fuel → 1 ≤ m →
    1 ≤ (daysToMonthAux y fuel m n).1 ∧ m ≤ (daysToMonthAux y fuel m n).1 ∧
    daysBeforeMonth y (daysToMonthAux y fuel m n).1 + (daysToMonthAux y fuel m n).2 =
      daysBeforeMonth y m + n ∧
    (daysToMonthAux y fuel m n).2 < daysInMonth y (daysToMonthAux y fuel m n).1 := by
  intro fuel
  induction fuel with
  | zero => intro m n h; omega
  | succ fuel ih =>
    intro m n h hm
    rw [daysToMonthAux]
    by_cases hlt : n < daysInMonth y m
    · rw [if_pos hlt]
      exact ⟨hm, le_refl m, rfl, hlt⟩
    · rw [if_neg hlt]
      have hpos := daysInMonth_pos y m
      obtain ⟨h1, h2, h3, h4⟩ :=
        ih (m + 1) (n - daysInMonth y m) (by omega) (by omega)
      refine ⟨h1, by omega, ?_, h4⟩
      rw [h3, daysBeforeMonth_succ y m hm]
      omega

theorem daysToDate_spec (n : Nat) :
    dateToDays (daysToDate n).1 (daysToDate n).2.1 (daysToDate n).2.2 = n ∧
    1 ≤ (daysToDate n).1 ∧
    1 ≤ (daysToDate n).2.1 ∧ (daysToDate n).2.1 ≤ 12 ∧
    1 ≤ (daysToDate n).2.2 ∧ (daysToDate n).2.2 ≤ 31 ∧
    (∀ Y, n < daysBeforeYear Y → (daysToDate n).1 < Y) := by
  unfold daysToDate
  have hseed := daysBeforeYear_seed n
  obtain ⟨hy1, hy2, hy3, hy4⟩ :=
    daysToYearAux_spec (n - daysBeforeYear (n / 366 + 1) + 1) (n / 366 + 1)
      (n - daysBeforeYear (n / 366 + 1)) (by omega) (by omega)
  obtain ⟨hm1, hm2, hm3, hm4⟩ :=
    daysToMonthAux_spec
      (daysToYearAux (n - daysBeforeYear (n / 366 + 1) + 1) (n / 366 + 1)
        (n - daysBeforeYear (n / 366 + 1))).1
      ((daysToYearAux (n - daysBeforeYear (n / 366 + 1) + 1) (n / 366 + 1)
        (n - daysBeforeYear (n / 366 + 1))).2 + 1)
      1
      (daysToYearAux (n - daysBeforeYear (n / 366 + 1) + 1) (n / 366 + 1)
        (n - daysBeforeYear (n / 366 + 1))).2
      (by omega) (by omega)
  dsimp only
  constructor
  · unfold dateToDays
    have hbm1 : daysBeforeMonth
        (daysToYearAux (n - daysBeforeYear (n / 366 + 1) + 1) (n / 366 + 1)
          (n - daysBeforeYear (n / 366 + 1))).1 1 = 0 := rfl
    omega
  refine ⟨hy1, hm1, ?_, by omega, by
    have := daysInMonth_le_31
      (daysToYearAux (n - daysBeforeYear (n / 366 + 1) + 1) (n / 366 + 1)
        (n - daysBeforeYear (n / 366 + 1))).1
      (daysToMonthAux
        (daysToYearAux (n - daysBeforeYear (n / 366 + 1) + 1) (n / 366 + 1)
          (n - daysBeforeYear (n / 366 + 1))).1
        ((daysToYearAux (n - daysBeforeYear (n / 366 + 1) + 1) (n / 366 + 1)
          (n - daysBeforeYear (n / 366 + 1))).2 + 1) 1
        (daysToYearAux (n - daysBeforeYear (n / 366 + 1) + 1) (n / 366 + 1)
          (n - daysBeforeYear (n / 366 + 1))).2).1
    omega, ?_⟩
  · by_contra hgt
    push_neg at hgt
    have h13 : (13 : Nat) ≤ (daysToMonthAux
        (daysToYearAux (n - daysBeforeYear (n / 366 + 1) + 1) (n / 366 + 1)
          (n - daysBeforeYear (n / 366 + 1))).1
        ((daysToYearAux (n - daysBeforeYear (n / 366 + 1) + 1) (n / 366 + 1)
          (n - daysBeforeYear (n / 366 + 1))).2 + 1) 1
        (daysToYearAux (n - daysBeforeYear (n / 366 + 1) + 1) (n / 366 + 1)
          (n - daysBeforeYear (n / 366 + 1))).2).1 := by omega
    have hmono := daysBeforeMonth_mono
      (daysToYearAux (n - daysBeforeYear (n / 366 + 1) + 1) (n / 366 + 1)
        (n - daysBeforeYear (n / 366 + 1))).1 (by omega : (1 : Nat) ≤ 13) h13
    rw [daysBeforeMonth_13] at hmono
    have hbm1 : daysBeforeMonth
        (daysToYearAux (n - daysBeforeYear (n / 366 + 1) + 1) (n / 366 + 1)
          (n - daysBeforeYear (n / 366 + 1))).1 1 = 0 := rfl
    omega
  · intro Y hY
    by_contra hge
    push_neg at hge
    have := daysBeforeYear_mono hge
    omega

/-! ## Lemmas about digit rendering and the localized-output parse-back -/

theorem digitVal_digitChar {k : Nat} (h : k ≤ 9) : digitVal (digitChar k) = k := by
  interval_cases k <;> decide

theorem dec2_digits (n : Nat) (h : n ≤ 99) :
    dec2 (digitChar (n / 10 % 10)) (digitChar (n % 10)) = n := by
  unfold dec2
  rw [digitVal_digitChar (by omega), digitVal_digitChar (by omega)]
  omega

theorem dec4_digits (y : Nat) (h : y ≤ 9999) :
    dec4 (digitChar (y / 1000 % 10)) (digitChar (y / 100 % 10))
      (digitChar (y / 10 % 10)) (digitChar (y % 10)) = y := by
  unfold dec4 dec2
  rw [digitVal_digitChar (by omega), digitVal_digitChar (by omega),
    digitVal_digitChar (by omega), digitVal_digitChar (by omega)]
  omega

theorem maxSecs_eq : maxSecs = daysBeforeYear 10000 * 86400 := by
  unfold maxSecs dateToDays
  simp [daysBeforeMonth]

set_option maxHeartbeats 2000000 in
theorem parseMadridChars_CET (y1 y2 y3 y4 o1 o2 d1 d2 h1 h2 i1 i2 s1 s2 : Char) :
    parseMadridChars [y1, y2, y3, y4, '-', o1, o2, '-', d1, d2, ' ',
      h1, h2, ':', i1, i2, ':', s1, s2, ' ', 'C', 'E', 'T'] =
    some ((localSecsOf y1 y2 y3 y4 o1 o2 d1 d2 h1 h2 i1 i2 s1 s2 : Int) - 3600) := rfl

set_option maxHeartbeats 2000000 in
theorem parseMadridChars_CEST (y1 y2 y3 y4 o1 o2 d1 d2 h1 h2 i1 i2 s1 s2 : Char) :
    parseMadridChars [y1, y2, y3, y4, '-', o1, o2, '-', d1, d2, ' ',
      h1, h2, ':', i1, i2, ':', s1, s2, ' ', 'C', 'E', 'S', 'T'] =
    some ((localSecsOf y1 y2 y3 y4 o1 o2 d1 d2 h1 h2 i1 i2 s1 s2 : Int) - 7200) := rfl

theorem parse_fmtLocal (loc : Nat) (h : loc < maxSecs) :
    parseMadridOut (fmtLocal loc "CET".data) = some ((loc : Int) - 3600) ∧
    parseMadridOut (fmtLocal loc "CEST".data) = some ((loc : Int) - 7200) := by
  obtain ⟨hrec, hy1, hm1, hm12, hd1, hd31, hY⟩ := daysToDate_spec (loc / 86400)
  have hmax := maxSecs_eq
  have hnd : loc / 86400 < daysBeforeYear 10000 := by omega
  have hylt := hY 10000 hnd
  have hcore : ∀ tz : List Char, (fmtLocal loc tz).data =
      pad4 (daysToDate (loc / 86400)).1 ++ '-' :: pad2 (daysToDate (loc / 86400)).2.1 ++
      '-' :: pad2 (daysToDate (loc / 86400)).2.2 ++ ' ' :: pad2 (loc % 86400 / 3600) ++
      ':' :: pad2 (loc % 86400 % 3600 / 60) ++ ':' :: pad2 (loc % 86400 % 60) ++
      ' ' :: tz := fun tz => rfl
  have hdecode : localSecsOf
      (digitChar ((daysToDate (loc / 86400)).1 / 1000 % 10))
      (digitChar ((daysToDate (loc / 86400)).1 / 100 % 10))
      (digitChar ((daysToDate (loc / 86400)).1 / 10 % 10))
      (digitChar ((daysToDate (loc / 86400)).1 % 10))
      (digitChar ((daysToDate (loc / 86400)).2.1 / 10 % 10))
      (digitChar ((daysToDate (loc / 86400)).2.1 % 10))
      (digitChar ((daysToDate (loc / 86400)).2.2 / 10 % 10))
      (digitChar ((daysToDate (loc / 86400)).2.2 % 10))
      (digitChar (loc % 86400 / 3600 / 10 % 10))
      (digitChar (loc % 86400 / 3600 % 10))
      (digitChar (loc % 86400 % 3600 / 60 / 10 % 10))
      (digitChar (loc % 86400 % 3600 / 60 % 10))
      (digitChar (loc % 86400 % 60 / 10 % 10))
      (digitChar (loc % 86400 % 60 % 10)) = loc := by
    unfold localSecsOf
    rw [dec4_digits _ (by omega), dec2_digits _ (by omega), dec2_digits _ (by omega),
      dec2_digits _ (by omega), dec2_digits _ (by omega), dec2_digits _ (by omega)]
    omega
  constructor
  · rw [parseMadridOut, hcore "CET".data,
      show ("CET".data) = ['C', 'E', 'T'] from rfl]
    simp only [pad4, pad2, List.cons_append, List.nil_append]
    rw [parseMadridChars_CET, hdecode]
  · rw [parseMadridOut, hcore "CEST".data,
      show ("CEST".data) = ['C', 'E', 'S', 'T'] from rfl]
    simp only [pad4, pad2, List.cons_append, List.nil_append]
    rw [parseMadridChars_CEST, hdecode]

/-! ## Lemmas about dictionary access -/

theorem pyIndex_obj_found (fields : List (String × Json)) (key : String) (v : Json)
    (h : Json.lookup fields key = some v) :
    pyIndex (Json.obj fields) key = .ok v := by
  unfold pyIndex
  dsimp only
  rw [h]

theorem pyIndex_obj_missing (fields : List (String × Json)) (key : String)
    (h : Json.lookup fields key = none) :
    pyIndex (Json.obj fields) key = .error (.keyError key) := by
  unfold pyIndex
  dsimp only
  rw [h]

/-! ## Claim theorems -/

/-- C1: the Orchestrator never propagates an unhandled fault to its caller.
Whenever the `try` body raises any exception `e` — at the Resolver, Initiator,
Poller or Reporter stage, `TransportError` included — `sync_lakehouse` still
returns normally, prints no table line, and logs exactly one diagnostic; in
particular a transport fault of the very first (Resolver) request yields
exactly the one corresponding `except`-clause diagnostic. -/
theorem sync_lakehouse_funnels_all_faults (env : Env) (fuel : Nat) :
    (∀ e, syncBody env fuel = some (.error e) →
      ∃ out, sync_lakehouse env fuel = some out ∧
        out.logged.length = 1 ∧ out.printed = []) ∧
    (∀ e, env.resolverResp = .error e →
      sync_lakehouse env fuel = some ⟨[], [excLog e]⟩) := by
  constructor
  · intro e h
    refine ⟨⟨[], [excLog e]⟩, ?_, rfl, rfl⟩
    unfold sync_lakehouse
    rw [h]
  · intro e h
    have hf : fetch_sql_endpoint_id env = .error e := by
      unfold fetch_sql_endpoint_id
      rw [h, pyBind_error]
    unfold sync_lakehouse syncBody
    rw [hf]

/-- C1 witness: a concrete run whose Resolver request fails with a transport
fault returns normally with one diagnostic and no printed line. -/
theorem sync_lakehouse_funnels_all_faults_witness :
    ∃ out, sync_lakehouse envResolverFault 1 = some out ∧
      out.logged.length = 1 ∧ out.printed = [] :=
  (sync_lakehouse_funnels_all_faults envResolverFault 1).1
    (.fabricHTTP "503 Server Error") rfl

/-- C2: whenever the Poller returns, the returned payload is the full payload
of the first status read whose `progressState` differs from `"inProgress"`
(so it never returns while the read state is `"inProgress"`, and every earlier
read reported `"inProgress"`), and the trace is one sleep-then-read cycle per
read, starting with a 1-unit sleep — hence at least one cycle is performed
unconditionally; `poll_sync_status` does not even consume the Initiator's
reported state. -/
theorem poll_sync_status_first_non_inProgress
    (resp : Nat → Except PyError Json) (fuel : Nat) (j : Json) (tr : List PollEv)
    (h : poll_sync_status resp fuel = (.done j, tr)) :
    ∃ t, resp t = .ok j ∧
      (∃ st, pyIndex j "progressState" = .ok st ∧ st ≠ Json.str "inProgress") ∧
      (∀ k, k < t → okInProgress resp k) ∧
      tr = (List.range (t + 1)).flatMap (fun k => [PollEv.sleep 1, PollEv.read k]) ∧
      tr.head? = some (PollEv.sleep 1) := by
  obtain ⟨t, _, hrt, hterm, hall, htr⟩ := pollAux_done resp fuel 0 j tr h
  have ht0 : t + 1 - 0 = t + 1 := rfl
  refine ⟨t, hrt, hterm, fun k hk => hall k (Nat.zero_le k) hk, ?_, ?_⟩
  · rw [htr, ht0, List.range_eq_range']
  · rw [htr, ht0, List.range'_succ, List.flatMap_cons]
    rfl

/-- C2 witness: with a first read already terminal, the Poller returns that
read's payload after exactly one sleep-then-read cycle. -/
theorem poll_sync_status_first_non_inProgress_witness :
    ∃ t, respTermAt0 t = .ok termPayload ∧
      (∃ st, pyIndex termPayload "progressState" = .ok st ∧
        st ≠ Json.str "inProgress") ∧
      (∀ k, k < t → okInProgress respTermAt0 k) ∧
      ([PollEv.sleep 1, PollEv.read 0] : List PollEv) =
        (List.range (t + 1)).flatMap (fun k => [PollEv.sleep 1, PollEv.read k]) ∧
      ([PollEv.sleep 1, PollEv.read 0] : List PollEv).head? =
        some (PollEv.sleep 1) :=
  poll_sync_status_first_non_inProgress respTermAt0 1 termPayload
    [.sleep 1, .read 0] rfl

/-- C4: on a terminal payload whose state is neither `"success"` nor (for the
last conjunct) `"failure"`, the Reporter builds zero TableSyncRecords, prints
nothing, and emits exactly one diagnostic; in the unrecognized case the
diagnostic is the warning naming the unexpected state string. -/
theorem reporter_non_success_zero_records (j st : Json)
    (hst : pyIndex j "progressState" = .ok st)
    (hns : st ≠ Json.str "success") :
    ∃ out, reportResult j = .ok ([], out) ∧ out.printed = [] ∧
      out.logged.length = 1 ∧
      (st ≠ Json.str "failure" →
        out.logged = [(LogLevel.warning, "Unexpected state: " ++ pyStr st)]) := by
  unfold reportResult
  rw [hst, pyBind_ok]
  rw [if_neg (fun hb => hns ((isStrEq_true_iff st "success").mp hb))]
  by_cases hf : st.isStrEq "failure" = true
  · rw [if_pos hf]
    refine ⟨⟨[], [(LogLevel.error, "Sync failed: " ++ pyStr j)]⟩, rfl, rfl, rfl, ?_⟩
    intro hne
    exact absurd ((isStrEq_true_iff st "failure").mp hf) hne
  · rw [if_neg hf]
    rw [pyBind_ok]
    exact ⟨⟨[], [(LogLevel.warning, "Unexpected state: " ++ pyStr st)]⟩,
      rfl, rfl, rfl, fun _ => rfl⟩

/-- C4 witness: the unrecognized terminal state `"done"` yields zero records,
no printed line and exactly the warning naming `"done"`. -/
theorem reporter_non_success_zero_records_witness :
    ∃ out, reportResult unexpectedPayload = .ok ([], out) ∧ out.printed = [] ∧
      out.logged.length = 1 ∧
      (Json.str "done" ≠ Json.str "failure" →
        out.logged = [(LogLevel.warning,
          "Unexpected state: " ++ pyStr (Json.str "done"))]) :=
  reporter_non_success_zero_records unexpectedPayload (Json.str "done") rfl
    (by simp)

/-- C5: the Time Localizer maps the absent (Python `None`) input to the
literal `"N/A"` without failing, and it fails with a `FormatError`
(`ValueError`) exactly on those present strings that are not valid
truncated-ISO timestamps. -/
theorem convert_to_spain_absent_and_format (s : String) :
    convert_to_spain Json.null = .ok "N/A" ∧
    ((∃ m, convert_to_spain (Json.str s) = .error (.valueError m)) ↔
      truncISOParse s = none) := by
  refine ⟨rfl, ?_, ?_⟩
  · rintro ⟨m, hm⟩
    cases hp : truncISOParse s with
    | none => rfl
    | some n =>
      unfold convert_to_spain at hm
      dsimp only at hm
      rw [hp] at hm
      dsimp only at hm
      unfold astimezoneMadrid at hm
      split at hm <;> simp at hm
  · intro hp
    refine ⟨"Invalid isoformat string: \x27" ++
      String.mk (s.data.takeWhile (· ≠ '.') ++ "+00:00".data) ++ "\x27", ?_⟩
    unfold convert_to_spain
    dsimp only
    rw [hp]

/-- C5 witness: the absent input yields `"N/A"`, and the invalid present
string `"N/A"` itself fails with a `FormatError`. -/
theorem convert_to_spain_absent_and_format_witness :
    convert_to_spain Json.null = .ok "N/A" ∧
    (∃ m, convert_to_spain (Json.str "N/A") = .error (.valueError m)) :=
  ⟨(convert_to_spain_absent_and_format "N/A").1,
   (convert_to_spain_absent_and_format "N/A").2.mpr rfl⟩

/-- C3 (code-bug evidence): a perfectly well-formed `success` payload whose
single table entry merely lacks `lastSuccessfulUpdate` makes the whole run
print zero table lines and log one generic diagnostic, because the success
branch passes the placeholder string `"N/A"` — the `dict.get` default — into
`convert_to_spain`, which only special-cases `None` and therefore raises
`ValueError` on `"N/A+00:00"`.  The spec instead promises one record per
entry with the absent timestamp shown as `"N/A"`. -/
theorem sync_lakehouse_missing_timestamp_bug :
    pyIndex (successPayload naTable) "progressState" = .ok (Json.str "success") ∧
    Json.lookup naTableFields "lastSuccessfulUpdate" = none ∧
    sync_lakehouse envMissingTimestamp 2 =
      some ⟨[], [(LogLevel.error,
        "An unexpected error occurred: Invalid isoformat string: \x27N/A+00:00\x27")]⟩ :=
  ⟨rfl, rfl, rfl⟩

/-- C6: the end-to-end scenario — endpoint `"ep-1"`, batch `"b1"` initially
`inProgress`, first poll `inProgress`, second poll `success` with the
`"Orders"` table — prints exactly one line for `"Orders"` whose localized
last-update field is `2024-01-01 11:00:00 CET`, and logs nothing. -/
theorem sync_lakehouse_orders_scenario :
    sync_lakehouse envScenario 3 =
      some ⟨["Table: Orders   Last Update: 2024-01-01 11:00:00 CET  " ++
        "Table Sync State: Completed  SQL Sync State: Completed"], []⟩ := rfl

/-- C7 counterexample: `"9999-12-31T23:30:00"` is a valid truncated-ISO UTC
timestamp (it parses), yet the Time Localizer produces no output on it — the
Madrid-local instant falls beyond year 9999, the bound of the `datetime`
calendar, so the conversion raises `OverflowError` instead of returning a
string; the universally stated round-trip property therefore fails here. -/
theorem convert_to_spain_roundtrip_counterexample :
    truncISOParse "9999-12-31T23:30:00" = some 315537895800 ∧
    convert_to_spain (Json.str "9999-12-31T23:30:00") =
      .error (.other "OverflowError: date value out of range") :=
  ⟨rfl, rfl⟩

set_option maxRecDepth 100000 in
/-- C7 (amended): for every valid truncated-ISO UTC timestamp whose
Madrid-local instant still fits the supported calendar (below year 10000),
the Time Localizer succeeds, and its output, parsed back and converted to
UTC via the offset named by the timezone abbreviation, equals the input
timestamp modulo truncation of the sub-second fractional component. -/
theorem convert_to_spain_roundtrip (s : String) (n : Nat)
    (hp : truncISOParse s = some n)
    (hof : n + madridOffset n < maxSecs) :
    ∃ out, convert_to_spain (Json.str s) = .ok out ∧
      parseMadridOut out = some (n : Int) := by
  unfold convert_to_spain
  dsimp only
  rw [hp]
  dsimp only
  unfold astimezoneMadrid
  rw [if_pos hof]
  by_cases hd : isDSTMadrid n = true
  · have hoff : madridOffset n = 7200 := by unfold madridOffset; rw [if_pos hd]
    rw [if_pos hd]
    refine ⟨_, rfl, ?_⟩
    rw [(parse_fmtLocal (n + madridOffset n) hof).2, hoff]
    have hcast : ((n + 7200 : Nat) : Int) - 7200 = (n : Int) := by
      push_cast
      omega
    rw [hcast]
  · have hoff : madridOffset n = 3600 := by unfold madridOffset; rw [if_neg hd]
    rw [if_neg hd]
    refine ⟨_, rfl, ?_⟩
    rw [(parse_fmtLocal (n + madridOffset n) hof).1, hoff]
    have hcast : ((n + 3600 : Nat) : Int) - 3600 = (n : Int) := by
      push_cast
      omega
    rw [hcast]

/-- C7 witness: a summer timestamp (CEST, offset 2h) with a fractional part
round-trips exactly through localization and parse-back. -/
theorem convert_to_spain_roundtrip_witness :
    ∃ out, convert_to_spain (Json.str "2024-06-15T12:00:00.5") = .ok out ∧
      parseMadridOut out = some ((63854049600 : Nat) : Int) :=
  convert_to_spain_roundtrip "2024-06-15T12:00:00.5" 63854049600 rfl (by decide)

/-- C8: the Poller is fixed-interval and unbounded: it never terminates on its
own if every read keeps reporting `"inProgress"` (the outcome is `diverge` at
every fuel), it does leave the loop as soon as some read is not an
`ok`-`"inProgress"` read (given fuel past that index), and its trace is always
an alternation of a constant 1-unit sleep followed by one status read, with no
iteration cap or timeout anywhere in the loop. -/
theorem poll_sync_status_unbounded (resp : Nat → Except PyError Json) :
    ((∀ k, okInProgress resp k) →
      ∀ fuel, (poll_sync_status resp fuel).1 = .diverge) ∧
    (∀ t, (∀ k, k < t → okInProgress resp k) → ¬ okInProgress resp t →
      ∀ fuel, t < fuel → (poll_sync_status resp fuel).1 ≠ .diverge) ∧
    (∀ fuel, ∃ c, (poll_sync_status resp fuel).2 =
      (List.range c).flatMap (fun k => [PollEv.sleep 1, PollEv.read k])) := by
  refine ⟨fun hall fuel => pollAux_diverge_of_all_inProgress resp hall fuel 0,
    fun t hb ht fuel hlt =>
      pollAux_not_diverge resp fuel 0 t (fun k _ h2 => hb k h2) ht
        (Nat.zero_le t) (by omega),
    fun fuel => ?_⟩
  obtain ⟨c, hc⟩ := pollAux_trace_shape resp fuel 0
  exact ⟨c, by rw [poll_sync_status, hc, List.range_eq_range']⟩

/-- C8 witness: reads that stay `inProgress` forever keep the loop running at
any fuel, while a first terminal read ends it within fuel 1. -/
theorem poll_sync_status_unbounded_witness :
    (poll_sync_status respAllInProgress 5).1 = .diverge ∧
    (poll_sync_status respTermAt0 1).1 ≠ .diverge := by
  constructor
  · exact (poll_sync_status_unbounded respAllInProgress).1
      (fun k => ⟨inProgressPayload, rfl, rfl⟩) 5
  · refine (poll_sync_status_unbounded respTermAt0).2.1 0
      (fun k hk => absurd hk (Nat.not_lt_zero k)) ?_ 1 (by omega)
    rintro ⟨j, hj, hst⟩
    have hj2 : termPayload = j := Except.ok.inj hj
    rw [← hj2] at hst
    have hrfl : pyIndex termPayload "progressState" =
        Except.ok (Json.str "success") := rfl
    rw [hrfl] at hst
    exact absurd (Except.ok.inj hst) (by simp)

/-- C9: when the Resolver's metadata response lacks the nested
`sqlEndpointProperties` field, the run terminates normally, prints no table
line, and logs exactly the one generic diagnostic carrying the `KeyError`
(the spec's `SchemaError`) for that field. -/
theorem sync_lakehouse_missing_sqlEndpointProperties
    (env : Env) (fuel : Nat) (fields pf : List (String × Json))
    (hres : env.resolverResp = .ok (Json.obj fields))
    (hprops : Json.lookup fields "properties" = some (Json.obj pf))
    (hmissing : Json.lookup pf "sqlEndpointProperties" = none) :
    sync_lakehouse env fuel =
      some ⟨[], [(LogLevel.error,
        "An unexpected error occurred: \x27sqlEndpointProperties\x27")]⟩ := by
  have hf : fetch_sql_endpoint_id env =
      .error (.keyError "sqlEndpointProperties") := by
    unfold fetch_sql_endpoint_id
    rw [hres, pyBind_ok, pyIndex_obj_found fields "properties" _ hprops, pyBind_ok,
      pyIndex_obj_missing pf "sqlEndpointProperties" hmissing, pyBind_error]
  unfold sync_lakehouse syncBody
  rw [hf]
  rfl

/-- C9 witness: a concrete metadata response whose `properties` object is
empty produces exactly the `SchemaError` diagnostic and no table line. -/
theorem sync_lakehouse_missing_sqlEndpointProperties_witness :
    sync_lakehouse envMissingSep 1 =
      some ⟨[], [(LogLevel.error,
        "An unexpected error occurred: \x27sqlEndpointProperties\x27")]⟩ :=
  sync_lakehouse_missing_sqlEndpointProperties envMissingSep 1
    [("properties", Json.obj [])] [] rfl rfl rfl

/-- C10: two runs that differ only in the `progressState` value returned by
the Sync Initiator — same resolver response, same batch id, same sequence of
poll responses — produce identical observable output: the Initiator's
reported initial state is discarded and never influences polling or
reporting. -/
theorem sync_lakehouse_init_state_noninterference
    (envA envB : Env) (fuel : Nat)
    (hres : envA.resolverResp = envB.resolverResp)
    (hpoll : envA.pollResp = envB.pollResp)
    (jA jB b vA vB : Json)
    (hiA : envA.initResp = .ok jA) (hiB : envB.initResp = .ok jB)
    (hbA : pyIndex jA "batchId" = .ok b) (hbB : pyIndex jB "batchId" = .ok b)
    (hpA : pyIndex jA "progressState" = .ok vA)
    (hpB : pyIndex jB "progressState" = .ok vB) :
    sync_lakehouse envA fuel = sync_lakehouse envB fuel := by
  have hinitA : initiate_sync envA = .ok (b, vA) := by
    unfold initiate_sync
    rw [hiA, pyBind_ok, hbA, pyBind_ok, hpA, pyBind_ok]
    rfl
  have hinitB : initiate_sync envB = .ok (b, vB) := by
    unfold initiate_sync
    rw [hiB, pyBind_ok, hbB, pyBind_ok, hpB, pyBind_ok]
    rfl
  have hfetch : fetch_sql_endpoint_id envA = fetch_sql_endpoint_id envB := by
    unfold fetch_sql_endpoint_id
    rw [hres]
  unfold sync_lakehouse syncBody
  rw [hfetch]
  cases fetch_sql_endpoint_id envB with
  | error e => rfl
  | ok sqlid =>
    dsimp only
    rw [hinitA, hinitB]
    dsimp only
    rw [hpoll]

/-- C10 witness: the same run with the Initiator reporting `inProgress`
versus `success` produces identical output. -/
theorem sync_lakehouse_init_state_noninterference_witness :
    sync_lakehouse envNIA 1 = sync_lakehouse envNIB 1 :=
  sync_lakehouse_init_state_noninterference envNIA envNIB 1 rfl rfl
    initOkJson initOkSuccessJson (Json.str "b1") (Json.str "inProgress")
    (Json.str "success") rfl rfl rfl rfl rfl rfl

end LakehouseSync
